import Mathlib

/-!
Shallow embedding of the AIS trajectory-classification pipeline of
`filter_vlm_processing/vlm_processing.py` (and its earlier variant
`trajectory_processor.py`).

Conventions of the embedding:
* Geographic and projected coordinates are pairs `(x, y) : ℚ × ℚ`
  (shapely stores `(lon, lat)` for EPSG:4326 points, so `centroid.x`
  is the longitude and `centroid.y` the latitude).
* External library calls that can raise (pyproj `CRS.from_dict`,
  geopandas `to_crs`, `pandas.groupby.get_group`, matplotlib plotting,
  the Anthropic client, `shutil.copy2`, `json.loads`, file writing)
  are modelled as explicit oracle parameters returning `Option`/`Except`
  or `Bool`; the repository's own control flow around them is embedded
  faithfully.
* `scipy.spatial.distance.euclidean` returns the non-negative square
  root of the squared distance, so the source test `dist < t` holds
  exactly when `0 ≤ t` and the squared distance is `< t * t`; the
  embedding uses that equivalent rational comparison and the bridge to
  `Real.sqrt` is proved where a claim speaks of Euclidean distance.
* Python's `int(total_points * 0.1)` truncates toward zero; for the
  point counts arising here (`N < 2^52`) the rounded double product
  `N * 0.1` always lies in `[N/10, N/10 + 1)` because the IEEE double
  nearest to 0.1 is slightly above 1/10, so the truncation equals
  `⌊N / 10⌋`, embedded as natural-number division `N / 10`.
-/

namespace NatsecAis

attribute [local semireducible] Rat.mul Rat.add Rat.sub Rat.inv

/-- Squared Euclidean distance between two planar points (the radicand of
`scipy.spatial.distance.euclidean(coords[i], coords[j])`). -/
def sqDist (p q : ℚ × ℚ) : ℚ :=
  (p.1 - q.1) ^ 2 + (p.2 - q.2) ^ 2

/-- The source's per-pair test `distance.euclidean(coords[i], coords[j]) <
proximity_threshold_meters`: the Euclidean distance is the non-negative
square root of `sqDist`, so it is strictly below `t` iff `0 ≤ t` and the
squared distance is strictly below `t * t` (proved in
`pairHit_iff_sqrt_lt`). -/
def pairHit (p q : ℚ × ℚ) (t : ℚ) : Bool :=
  decide (0 ≤ t) && decide (sqDist p q < t * t)

/-- The doubly nested pair loop of `count_self_proximity_hits`
(`vlm_processing.py` lines 115–121, identically `trajectory_processor.py`
lines 142–152): `adjacency_window = max(2, int(total_points * 0.1))`, then
`for i in range(total_points): for j in range(i + 1, total_points): if
abs(i - j) <= adjacency_window: continue; if dist < t: hit_count += 1`. -/
def countPairs (coords : List (ℚ × ℚ)) (t : ℚ) : ℕ :=
  let N := coords.length
  let W := max 2 (N / 10)
  (List.range N).foldl (fun acc i =>
    (List.range' (i + 1) (N - (i + 1))).foldl (fun acc2 j =>
      if j - i ≤ W then acc2
      else if pairHit (coords.getD i (0, 0)) (coords.getD j (0, 0)) t then acc2 + 1
      else acc2) acc) 0

/-- A coordinate reference system as selected by the pipeline: either the
per-vessel UTM zone built by `estimate_utm_crs`, or the fixed fallback
`'EPSG:3857'`. -/
inductive CRSSpec where
  | utm (zone : ℤ) (south : Bool)
  | epsg3857
deriving DecidableEq

/-- `estimate_utm_crs(lat, lon)`: `zone = int((lon + 180) / 6) + 1` (the
argument is non-negative, so Python's truncation is the floor) and
`south = lat < 0`.  The pyproj `CRS.from_dict` call can raise; that
failure is modelled by the `utmRaises` oracle at each call site. -/
def estimate_utm_crs (lat lon : ℚ) : CRSSpec :=
  .utm (⌊(lon + 180) / 6⌋ + 1) (decide (lat < 0))

/-- The CRS-selection prelude shared by `count_self_proximity_hits` and
`process_trajectories`: `target_crs = 'EPSG:3857'`; if the centroid is a
non-empty point, `try: target_crs = estimate_utm_crs(centroid.y,
centroid.x) except: pass`.  `centroid = none` models an empty centroid,
`utmRaises = true` models `CRS.from_dict` raising.  A shapely centroid is
`(x, y) = (lon, lat)`, hence the swapped projections below. -/
def select_target_crs (centroid : Option (ℚ × ℚ)) (utmRaises : Bool) : CRSSpec :=
  match centroid with
  | none => .epsg3857
  | some c => if utmRaises then .epsg3857 else estimate_utm_crs c.2 c.1

/-- `count_self_proximity_hits(trajectory, proximity_threshold_meters)`
(`vlm_processing.py` lines 96–124 = `trajectory_processor.py` lines
102–156).  `traj = none` models `trajectory is None`; `applyCRS` models
`GeoSeries.to_crs` (`none` = the call raised, caught by the function's
`except` which returns 0).  Every early exit of the source returns the
running `hit_count = 0`. -/
def count_self_proximity_hits (traj : Option (List (ℚ × ℚ)))
    (centroid : Option (ℚ × ℚ)) (utmRaises : Bool)
    (applyCRS : CRSSpec → List (ℚ × ℚ) → Option (List (ℚ × ℚ)))
    (t : ℚ) : ℕ :=
  match traj with
  | none => 0
  | some coords =>
    if coords.isEmpty then 0
    else if coords.length < 5 then 0
    else
      match applyCRS (select_target_crs centroid utmRaises) coords with
      | none => 0
      | some projected =>
        if projected.isEmpty then 0
        else if projected.length < 5 then 0
        else countPairs projected t

/-- The three filter thresholds of `THRESHOLDS = {'speed': 1.5, 'size':
500.0, 'hits': 50}`. -/
structure Thresholds where
  speed : ℚ
  size : ℚ
  hits : ℕ
deriving DecidableEq

/-- The per-vessel metrics dict built in `process_trajectories`:
`avg_sog` is `none` when the pandas mean is NaN (SOG column missing or
all values NaN). -/
structure Metrics where
  avg_sog : Option ℚ
  length_km : ℚ
  bbox_width_m : ℚ
  bbox_height_m : ℚ
  proximity_hits : ℕ
deriving DecidableEq

/-- The four classification outcomes assigned in `process_trajectories`
("Likely Jitter", "Likely Jitter (No SOG)", "Potential Pattern for VLM",
"No Significant Proximity"). -/
inductive Classification where
  | LikelyJitter
  | LikelyJitterNoSpeedData
  | PotentialPattern
  | NoSignificantProximity
deriving DecidableEq

/-- The filter logic of `process_trajectories` (`vlm_processing.py` lines
275–306): first the jitter test guarded by `not pd.isna(avg_sog)`, then
the no-SOG jitter `elif`, then `if not is_likely_jitter:` the proximity
split.  The Python flag `is_likely_jitter` is expressed as nested
conditionals with identical branch order. -/
def classify (m : Metrics) (th : Thresholds) : Classification :=
  match m.avg_sog with
  | some s =>
    if s < th.speed ∧ m.bbox_width_m < th.size ∧ m.bbox_height_m < th.size ∧
        th.hits < m.proximity_hits then
      .LikelyJitter
    else if 0 < m.proximity_hits then .PotentialPattern
    else .NoSignificantProximity
  | none =>
    if m.bbox_width_m < th.size ∧ m.bbox_height_m < th.size ∧
        th.hits < m.proximity_hits then
      .LikelyJitterNoSpeedData
    else if 0 < m.proximity_hits then .PotentialPattern
    else .NoSignificantProximity

/-- A parsed JSON value, the outcome type of Python's `json.loads` (an
external standard-library collaborator).  `json.loads` is modelled as an
oracle `String → Option Json`: `none` means it raised `JSONDecodeError`.
An object's fields are listed as key–value pairs (a Python dict, so keys
are assumed distinct). -/
inductive Json where
  | str (s : String)
  | num (q : ℚ)
  | bool (b : Bool)
  | null
  | arr (xs : List Json)
  | obj (fields : List (String × Json))

/-- First value bound to key `k` in a JSON object's field list (Python
`dict.get(k, default)` without the default). -/
def lookupField (fields : List (String × Json)) (k : String) : Option Json :=
  match fields with
  | [] => none
  | (k2, v) :: rest => if k2 = k then some v else lookupField rest k

/-- Python's `survey_classification == "SOME_LABEL"` comparison: a dynamic
value equals a string literal only when it is that string. -/
def jsonEqStr (j : Json) (s : String) : Bool :=
  match j with
  | .str t => t == s
  | _ => false

/-- `analyze_trajectory_with_claude` (`vlm_processing.py` lines 155–220):
the whole body is one `try`; on success it returns
`message.content[0].text.strip()`, and the `except Exception` returns the
plain string `f"ERROR: {str(e)}"`.  The Anthropic client call is the
oracle `callResult` (`Except.error e` = the client raised with message
`e`). -/
def analyze_trajectory_with_claude (callResult : Except String String) : String :=
  match callResult with
  | .ok text => text.trim
  | .error e => "ERROR: " ++ e

/-- `extract_classification(vlm_result)` (`vlm_processing.py` lines
222–234): `json.loads(vlm_result)` raising `JSONDecodeError` (`loads _ =
none`) yields `"PARSING_ERROR"`; a parsed dict yields
`result_json.get("classification", "UNKNOWN")`; any other parsed value
makes `.get` raise `AttributeError`, caught by the generic `except`
returning `"ERROR"`.  The result is a dynamic Python value (the field's
value need not be a string), hence the `Json` codomain. -/
def extract_classification (loads : String → Option Json) (vlm_result : String) : Json :=
  match loads vlm_result with
  | none => .str "PARSING_ERROR"
  | some (.obj fields) => (lookupField fields "classification").getD (.str "UNKNOWN")
  | some _ => .str "ERROR"

/-- One row of the cleaned AIS DataFrame: `index` is the positional index
preserved by `df.reset_index()` in `load_ais_data`, `baseDateTime` the
parsed timestamp (`none` = NaT), coordinates in degrees. -/
structure FixRow where
  index : ℕ
  mmsi : ℤ
  lon : ℚ
  lat : ℚ
  baseDateTime : Option ℤ
deriving DecidableEq

/-- The rows of one vessel, in DataFrame order (`pandas.groupby`
preserves the original order within each group). -/
def groupRows (df : List FixRow) (m : ℤ) : List FixRow :=
  df.filter (fun r => r.mmsi = m)

/-- Insert into a key-sorted list, after all rows of strictly smaller or
equal key (the stable placement of `DataFrame.sort_values`). -/
def insertByKey (key : FixRow → ℤ) (r : FixRow) : List FixRow → List FixRow
  | [] => [r]
  | y :: ys => if key r < key y then r :: y :: ys else y :: insertByKey key r ys

/-- Stable insertion sort by an integer key, modelling
`DataFrame.sort_values(by=...)` on a single column. -/
def sortRowsBy (key : FixRow → ℤ) (l : List FixRow) : List FixRow :=
  l.foldr (insertByKey key) []

/-- Ascending insertion of a vessel identifier, dropping duplicates:
`pandas.groupby` iterates group keys in ascending order. -/
def insertMMSI (x : ℤ) : List ℤ → List ℤ
  | [] => [x]
  | y :: ys => if x < y then x :: y :: ys else if x = y then y :: ys else y :: insertMMSI x ys

/-- The ascending list of distinct vessel identifiers of a DataFrame. -/
def distinctMMSIs (df : List FixRow) : List ℤ :=
  df.foldl (fun acc r => insertMMSI r.mmsi acc) []

/-- `create_trajectories(df, min_points)` of `vlm_processing.py` (lines
68–87): groups by MMSI, keeps groups with `len(group) >= min_points`,
sorts each kept group **by the preserved positional `index` column**
("Sort by index (original order) as BaseDateTime might be missing/NaT")
and emits the LineString of the group's `(lon, lat)` points. -/
def create_trajectories (df : List FixRow) (min_points : ℕ) : List (ℤ × List (ℚ × ℚ)) :=
  (distinctMMSIs df).filterMap (fun m =>
    let grp := groupRows df m
    if min_points ≤ grp.length then
      some (m, (sortRowsBy (fun r => (r.index : ℤ)) grp).map (fun r => (r.lon, r.lat)))
    else none)

/-- `create_trajectories(df, min_points)` of `trajectory_processor.py`
(lines 57–88): identical grouping and threshold, but each kept group is
sorted **by `BaseDateTime`**; that script's loader drops NaT timestamps,
so the key defaults are never reached on its inputs. -/
def create_trajectories_tp (df : List FixRow) (min_points : ℕ) : List (ℤ × List (ℚ × ℚ)) :=
  (distinctMMSIs df).filterMap (fun m =>
    let grp := groupRows df m
    if min_points ≤ grp.length then
      some (m, (sortRowsBy (fun r => r.baseDateTime.getD 0) grp).map (fun r => (r.lon, r.lat)))
    else none)

/-- Outcome of `grouped_subset.get_group(mmsi)` plus the SOG lookup:
`hasSOG` is `'SOG' in mmsi_group.columns`; `sogMean` is the pandas
NaN-ignoring mean of the column (`none` = the mean is NaN because no
non-null value exists). -/
structure GroupData where
  hasSOG : Bool
  sogMean : Option ℚ
deriving DecidableEq

/-- The per-vessel inputs and per-vessel oracle outcomes of one iteration
of the `process_trajectories` loop.  `group = none` models `get_group`
raising `KeyError`; `centroid`/`utmRaises` are shared with the nested
`count_self_proximity_hits` call, which recomputes the same centroid and
the same `estimate_utm_crs` call on it; `plotOk` is the boolean result of
`plot_trajectory` (which catches its own exceptions); `vlmCall` the
Anthropic client outcome; `copyRaises` models `shutil.copy2` raising. -/
structure VesselEnv where
  mmsi : ℤ
  traj : List (ℚ × ℚ)
  group : Option GroupData
  centroid : Option (ℚ × ℚ)
  utmRaises : Bool
  plotOk : Bool
  vlmCall : Except String String
  copyRaises : Bool

/-- The run-wide collaborators of `process_trajectories`: the geopandas
`to_crs` reprojection, the shapely `.length` of a projected line, the
`json.loads` of the VLM response, and the threshold dict. -/
structure Globals where
  applyCRS : CRSSpec → List (ℚ × ℚ) → Option (List (ℚ × ℚ))
  lengthOf : List (ℚ × ℚ) → ℚ
  loads : String → Option Json
  th : Thresholds

/-- The counter dict initialised at the top of `process_trajectories`
(`vlm_processing.py` line 239). -/
structure Counts where
  jitter : ℕ := 0
  pattern_vlm : ℕ := 0
  no_prox : ℕ := 0
  processed : ℕ := 0
  plotted : ℕ := 0
  likely_survey : ℕ := 0
  possible_survey : ℕ := 0
deriving DecidableEq

/-- One entry of the `pattern_info` list appended for each candidate sent
to the VLM (`vlm_processing.py` lines 326–335). -/
structure PatternRecord where
  mmsi : ℤ
  length_km : ℚ
  avg_sog : Option ℚ
  prox_hits : ℕ
  bbox_width_m : ℚ
  bbox_height_m : ℚ
  survey_classification : Json
  vlm_raw_result : String

/-- Minimum of a non-empty coordinate list (used for the `bounds` of the
projected LineString). -/
def listMin (l : List ℚ) : ℚ :=
  match l with
  | [] => 0
  | x :: xs => xs.foldl min x

/-- Maximum of a non-empty coordinate list. -/
def listMax (l : List ℚ) : ℚ :=
  match l with
  | [] => 0
  | x :: xs => xs.foldl max x

/-- Result of the metric-computation prefix of one loop iteration
(`vlm_processing.py` lines 249–274): `err` = an exception reached the
loop-level `except` (`get_group` or `to_crs` raised) before any
classification; `skip` = the `continue` taken when the projected line is
empty; `ok m` = the metrics dict was completed. -/
inductive StageResult where
  | err
  | skip
  | ok (m : Metrics)
deriving DecidableEq

/-- The metric-computation prefix of one iteration: SOG mean via
`get_group`, CRS selection and reprojection, `length`/`bounds` of the
projected line, and the nested `count_self_proximity_hits(traj)` call
(with its default 200 m threshold). -/
def computeMetrics (g : Globals) (v : VesselEnv) : StageResult :=
  match v.group with
  | none => .err
  | some grp =>
    let avg_sog : Option ℚ := if grp.hasSOG then grp.sogMean else none
    match g.applyCRS (select_target_crs v.centroid v.utmRaises) v.traj with
    | none => .err
    | some projected =>
      if projected.isEmpty then .skip
      else
        let xs := projected.map Prod.fst
        let ys := projected.map Prod.snd
        .ok { avg_sog := avg_sog
              length_km := g.lengthOf projected / 1000
              bbox_width_m := listMax xs - listMin xs
              bbox_height_m := listMax ys - listMin ys
              proximity_hits :=
                count_self_proximity_hits (some v.traj) v.centroid v.utmRaises g.applyCRS 200 }

/-- Bump the counter of the classification branch taken
(`counts['jitter'] += 1` in both jitter branches, else the proximity
split). -/
def bumpClassCounter (c : Counts) (cl : Classification) : Counts :=
  match cl with
  | .LikelyJitter => { c with jitter := c.jitter + 1 }
  | .LikelyJitterNoSpeedData => { c with jitter := c.jitter + 1 }
  | .PotentialPattern => { c with pattern_vlm := c.pattern_vlm + 1 }
  | .NoSignificantProximity => { c with no_prox := c.no_prox + 1 }

/-- The `pattern_info` entry appended for a candidate
(`vlm_processing.py` lines 319–335): the raw client result (or the
`except`-produced `"ERROR: ..."` string) and the classification
extracted from it, together with the metrics. -/
def candidateRecord (g : Globals) (v : VesselEnv) (m : Metrics) : PatternRecord :=
  let raw := analyze_trajectory_with_claude v.vlmCall
  { mmsi := v.mmsi
    length_km := m.length_km
    avg_sog := m.avg_sog
    prox_hits := m.proximity_hits
    bbox_width_m := m.bbox_width_m
    bbox_height_m := m.bbox_height_m
    survey_classification := extract_classification g.loads raw
    vlm_raw_result := raw }

/-- The VLM block run for a plotted "Potential Pattern for VLM" vessel
(`vlm_processing.py` lines 317–347): call the client, extract the
classification, append the record, then copy the plot on a
LIKELY/POSSIBLE label (`shutil.copy2` may raise — the record is already
appended and the loop-level `except` still falls through to
`counts['processed'] += 1`, but the survey counter is not bumped). -/
def vlmStep (g : Globals) (c : Counts) (recs : List PatternRecord) (v : VesselEnv)
    (m : Metrics) : Counts × List PatternRecord :=
  let survey := (candidateRecord g v m).survey_classification
  let recs := recs ++ [candidateRecord g v m]
  if jsonEqStr survey "LIKELY_SURVEY_PATTERN" then
    if v.copyRaises then (c, recs)
    else ({ c with likely_survey := c.likely_survey + 1 }, recs)
  else if jsonEqStr survey "POSSIBLE_SURVEY_PATTERN" then
    if v.copyRaises then (c, recs)
    else ({ c with possible_survey := c.possible_survey + 1 }, recs)
  else (c, recs)

/-- One iteration of the `for mmsi, traj in trajectories.items()` loop of
`process_trajectories` (`vlm_processing.py` lines 244–353).  The
`continue` of the empty-projection branch jumps past the trailing
`counts['processed'] += 1`, so a skipped vessel increments nothing; an
exception is caught by the loop-level `except` and still reaches the
trailing increment. -/
def processVessel (g : Globals) (acc : Counts × List PatternRecord) (v : VesselEnv) :
    Counts × List PatternRecord :=
  let c := acc.1
  let recs := acc.2
  match computeMetrics g v with
  | .err => ({ c with processed := c.processed + 1 }, recs)
  | .skip => (c, recs)
  | .ok m =>
    let cl := classify m g.th
    let c2 := bumpClassCounter c cl
    if v.plotOk then
      let c3 := { c2 with plotted := c2.plotted + 1 }
      if cl = .PotentialPattern then
        let out := vlmStep g c3 recs v m
        ({ out.1 with processed := out.1.processed + 1 }, out.2)
      else ({ c3 with processed := c3.processed + 1 }, recs)
    else ({ c2 with processed := c2.processed + 1 }, recs)

/-- `process_trajectories(trajectories, ...)`: fold the per-vessel
iteration over the trajectory dict (vessels in ascending-MMSI order, as
produced by `create_trajectories`), starting from zero counters and an
empty `pattern_info` list. -/
def process_trajectories (g : Globals) (vessels : List VesselEnv) :
    Counts × List PatternRecord :=
  vessels.foldl (processVessel g) ({}, [])

/-- Outcome of `save_vlm_results` (`vlm_processing.py` lines 364–398):
the early return on empty input, success of both CSV writes, or the
`except Exception` that prints `f"Error saving VLM results: {e}"` and
returns normally. -/
inductive SaveOutcome where
  | nothingToSave
  | saved (summaryName fullName : String)
  | errorLogged (msg : String)
deriving DecidableEq

/-- `save_vlm_results(pattern_info, output_path)`: writes the summary CSV
then the full CSV inside one `try`; `write` is the file-system oracle
(`Except.error e` = the write raised with message `e`).  The caught
exception is only printed — nothing is re-raised and nothing fatal
happens. -/
def save_vlm_results (info : List PatternRecord) (timestamp : String)
    (write : String → List PatternRecord → Except String Unit) : SaveOutcome :=
  if info.isEmpty then .nothingToSave
  else
    let summaryName := "vlm_analysis_results_" ++ timestamp ++ ".csv"
    let fullName := "vlm_analysis_full_" ++ timestamp ++ ".csv"
    match write summaryName info with
    | .error e => .errorLogged e
    | .ok _ =>
      match write fullName info with
      | .error e => .errorLogged e
      | .ok _ => .saved summaryName fullName

/-- The tail of the `__main__` block of `vlm_processing.py` (lines
448–459): after processing, `save_vlm_results` is called when
`pattern_info` is non-empty, and the script unconditionally proceeds to
print `"Reprocessing finished."` — there is no code path on which a
write failure terminates the run. -/
def reprocessMainTail (info : List PatternRecord) (timestamp : String)
    (write : String → List PatternRecord → Except String Unit) :
    Option SaveOutcome × String :=
  ((if info.isEmpty then none else some (save_vlm_results info timestamp write)),
   "Reprocessing finished.")

/-! ### Counting lemmas for the proximity loop -/

lemma foldl_count_aux (p : ℕ → Bool) (l : List ℕ) (a : ℕ) :
    l.foldl (fun acc j => if p j then acc + 1 else acc) a = a + l.countP p := by
  induction l generalizing a with
  | nil => simp
  | cons x xs ih =>
    simp only [List.foldl_cons, List.countP_cons, ih]
    by_cases h : p x
    · simp [h]; omega
    · simp [h]

lemma foldl_congr_fun {α : Type} (f g : ℕ → α → ℕ) (l : List α) (a : ℕ)
    (h : ∀ acc x, f acc x = g acc x) : l.foldl f a = l.foldl g a := by
  induction l generalizing a with
  | nil => rfl
  | cons x xs ih => simp only [List.foldl_cons, h, ih]

lemma foldl_add_eq_sum (g : ℕ → ℕ) (l : List ℕ) (a : ℕ) :
    l.foldl (fun acc i => acc + g i) a = a + (l.map g).sum := by
  induction l generalizing a with
  | nil => simp
  | cons x xs ih => simp [ih]; omega

lemma sum_map_range (g : ℕ → ℕ) (N : ℕ) :
    ((List.range N).map g).sum = ∑ i ∈ Finset.range N, g i := by
  induction N with
  | zero => simp
  | succ n ih => rw [List.range_succ]; simp [ih, Finset.sum_range_succ]

lemma countP_range' (p : ℕ → Bool) (n : ℕ) : ∀ s : ℕ,
    (List.range' s n).countP p = ∑ j ∈ Finset.Ico s (s + n), if p j then 1 else 0 := by
  induction n with
  | zero => intro s; simp
  | succ m ih =>
    intro s
    rw [List.range'_succ, List.countP_cons,
      Finset.sum_eq_sum_Ico_succ_bot (by omega : s < s + (m + 1))]
    have h2 : s + 1 + m = s + (m + 1) := by omega
    rw [← h2, ih (s + 1)]
    omega

lemma filter_lt_range_eq_Ico (i N : ℕ) :
    (Finset.range N).filter (fun j => i < j) = Finset.Ico (i + 1) N := by
  ext j
  simp only [Finset.mem_filter, Finset.mem_range, Finset.mem_Ico]
  omega

/-- The nested loop of `count_self_proximity_hits` counts exactly the
index pairs `(i, j)` with `j > i`, `j - i` above the adjacency window,
and the distance test true. -/
lemma countPairs_eq_card (coords : List (ℚ × ℚ)) (t : ℚ) :
    countPairs coords t =
      ((Finset.range coords.length ×ˢ Finset.range coords.length).filter
        (fun p => p.1 < p.2 ∧ max 2 (coords.length / 10) < p.2 - p.1 ∧
          pairHit (coords.getD p.1 (0, 0)) (coords.getD p.2 (0, 0)) t = true)).card := by
  unfold countPairs
  set N := coords.length with hN
  set W := max 2 (N / 10) with hW
  set hit : ℕ → ℕ → Bool := fun i j => pairHit (coords.getD i (0, 0)) (coords.getD j (0, 0)) t
    with hhit
  have hinner : ∀ (acc i : ℕ),
      (List.range' (i + 1) (N - (i + 1))).foldl (fun acc2 j =>
        if j - i ≤ W then acc2 else if hit i j then acc2 + 1 else acc2) acc
      = acc + (List.range' (i + 1) (N - (i + 1))).countP
          (fun j => (!(decide (j - i ≤ W))) && hit i j) := by
    intro acc i
    rw [← foldl_count_aux]
    apply foldl_congr_fun
    intro a j
    by_cases h1 : j - i ≤ W
    · simp [h1]
    · by_cases h2 : hit i j <;> simp [h1, h2]
  rw [foldl_congr_fun _ (fun acc i => acc +
      (List.range' (i + 1) (N - (i + 1))).countP
        (fun j => (!(decide (j - i ≤ W))) && hit i j)) _ _ hinner]
  rw [foldl_add_eq_sum, sum_map_range, Nat.zero_add]
  rw [Finset.card_filter, Finset.sum_product]
  apply Finset.sum_congr rfl
  intro i hi
  have hiN : i < N := Finset.mem_range.mp hi
  rw [countP_range' _ _ (i + 1)]
  have hIco : i + 1 + (N - (i + 1)) = N := by omega
  rw [hIco]
  have hsplit : ∀ j : ℕ,
      (if i < j ∧ W < j - i ∧ hit i j = true then (1 : ℕ) else 0)
      = if i < j then (if W < j - i ∧ hit i j = true then (1 : ℕ) else 0) else 0 := by
    intro j
    by_cases h1 : i < j
    · simp [h1]
    · simp [h1]
  simp only [hsplit]
  conv_rhs => rw [← Finset.sum_filter]
  rw [filter_lt_range_eq_Ico]
  apply Finset.sum_congr rfl
  intro j hj
  exact if_congr (by simp [Nat.not_le]; intro _; omega) rfl rfl

/-- The rational comparison performed by `pairHit` coincides with the
source's comparison of the Euclidean distance (the non-negative square
root of the squared distance) against the threshold. -/
lemma pairHit_iff_sqrt_lt (p q : ℚ × ℚ) (t : ℚ) :
    pairHit p q t = true ↔ Real.sqrt ((sqDist p q : ℚ) : ℝ) < (t : ℝ) := by
  have hd0 : (0 : ℚ) ≤ sqDist p q := by unfold sqDist; positivity
  unfold pairHit
  simp only [Bool.and_eq_true, decide_eq_true_eq]
  constructor
  · rintro ⟨ht, hd⟩
    have ht2 : 0 < t := by nlinarith
    have htR : (0 : ℝ) < (t : ℝ) := by exact_mod_cast ht2
    rw [Real.sqrt_lt' htR, sq]
    exact_mod_cast hd
  · intro h
    have htR : (0 : ℝ) < (t : ℝ) := lt_of_le_of_lt (Real.sqrt_nonneg _) h
    have ht : (0 : ℚ) < t := by exact_mod_cast htR
    rw [Real.sqrt_lt' htR, sq] at h
    exact ⟨le_of_lt ht, by exact_mod_cast h⟩

/-! ### Claim C1 -/

/-- C1 (confirmed): for every trajectory whose projection yields `N ≥ 5`
projected points and every threshold `t`, `count_self_proximity_hits`
returns exactly the number of index pairs `(i, j)` with `j > i` and
`j - i > W`, `W = max 2 ⌊N / 10⌋`, whose Euclidean distance in the
projected plane is strictly less than `t` (the rational guard
`0 ≤ t ∧ sqDist < t * t` is exactly that comparison, second conjunct);
pairs at distance exactly `t` fail the strict comparison and are not
counted. -/
theorem count_self_proximity_hits_pair_count (traj coords : List (ℚ × ℚ))
    (centroid : Option (ℚ × ℚ)) (u : Bool)
    (applyCRS : CRSSpec → List (ℚ × ℚ) → Option (List (ℚ × ℚ))) (t : ℚ)
    (hproj : applyCRS (select_target_crs centroid u) traj = some coords)
    (h5t : 5 ≤ traj.length) (h5 : 5 ≤ coords.length) :
    count_self_proximity_hits (some traj) centroid u applyCRS t =
      ((Finset.range coords.length ×ˢ Finset.range coords.length).filter
        (fun p => p.1 < p.2 ∧ max 2 (coords.length / 10) < p.2 - p.1 ∧
          0 ≤ t ∧ sqDist (coords.getD p.1 (0, 0)) (coords.getD p.2 (0, 0)) < t * t)).card
    ∧ ∀ p q : ℚ × ℚ,
        (0 ≤ t ∧ sqDist p q < t * t) ↔ Real.sqrt ((sqDist p q : ℚ) : ℝ) < (t : ℝ) := by
  have e1 : traj.isEmpty = false := by
    cases traj with
    | nil => simp at h5t
    | cons a l => rfl
  have e2 : coords.isEmpty = false := by
    cases coords with
    | nil => simp at h5
    | cons a l => rfl
  constructor
  · have hcount : count_self_proximity_hits (some traj) centroid u applyCRS t =
        countPairs coords t := by
      simp only [count_self_proximity_hits, e1, hproj, e2, Bool.false_eq_true, if_false]
      rw [if_neg (by omega), if_neg (by omega)]
    rw [hcount, countPairs_eq_card]
    congr 1
    apply Finset.filter_congr
    intro x _
    simp only [pairHit, Bool.and_eq_true, decide_eq_true_eq]
  · intro p q
    rw [← pairHit_iff_sqrt_lt]
    simp [pairHit]

/-- Concrete instantiation of `count_self_proximity_hits_pair_count`: six
collinear points, identity reprojection, threshold 200 m. -/
theorem count_self_proximity_hits_pair_count_witness :
    (fun coords : List (ℚ × ℚ) =>
      (fun applyCRS : CRSSpec → List (ℚ × ℚ) → Option (List (ℚ × ℚ)) =>
        applyCRS (select_target_crs (some (2, 0)) false) coords = some coords ∧
        5 ≤ coords.length ∧
        (count_self_proximity_hits (some coords) (some (2, 0)) false applyCRS 200 =
          ((Finset.range coords.length ×ˢ Finset.range coords.length).filter
            (fun p => p.1 < p.2 ∧ max 2 (coords.length / 10) < p.2 - p.1 ∧
              (0 : ℚ) ≤ 200 ∧ sqDist (coords.getD p.1 (0, 0)) (coords.getD p.2 (0, 0)) <
                200 * 200)).card
        ∧ ∀ p q : ℚ × ℚ, ((0 : ℚ) ≤ 200 ∧ sqDist p q < 200 * 200) ↔
            Real.sqrt ((sqDist p q : ℚ) : ℝ) < ((200 : ℚ) : ℝ)))
        (fun _ l => some l))
      [(0, 0), (1, 0), (2, 0), (3, 0), (4, 0), (0, 1)] := by
  refine ⟨rfl, by decide, ?_⟩
  exact count_self_proximity_hits_pair_count _ _ _ _ _ 200 rfl (by decide) (by decide)

/-! ### Claim C2 -/

/-- Branch 1 of the filter logic: speed data present and all four strict
comparisons hold. -/
def jitterBranch (m : Metrics) (th : Thresholds) : Prop :=
  ∃ s, m.avg_sog = some s ∧ s < th.speed ∧ m.bbox_width_m < th.size ∧
    m.bbox_height_m < th.size ∧ th.hits < m.proximity_hits

/-- Branch 2 of the filter logic: speed data absent and the three strict
comparisons hold. -/
def jitterNoSogBranch (m : Metrics) (th : Thresholds) : Prop :=
  m.avg_sog = none ∧ m.bbox_width_m < th.size ∧ m.bbox_height_m < th.size ∧
    th.hits < m.proximity_hits

/-- C2 (confirmed): `classify` is a total function of Metrics and the
three thresholds; the four branches are characterised in source order
with first match winning (branches 1 and 2 are mutually exclusive by the
presence of speed data, and the proximity split only applies when
neither fired), every Metrics value yields exactly one Classification
(immediate from the four disjoint exhaustive equivalences), and all
comparisons are strict: `avg_sog` equal to the speed threshold never
yields LikelyJitter, and `proximity_hits` equal to the hits threshold
satisfies neither jitter branch. -/
theorem classify_branch_order (m : Metrics) (th : Thresholds) :
    (classify m th = .LikelyJitter ↔ jitterBranch m th)
  ∧ (classify m th = .LikelyJitterNoSpeedData ↔ jitterNoSogBranch m th)
  ∧ (classify m th = .PotentialPattern ↔
      ¬ jitterBranch m th ∧ ¬ jitterNoSogBranch m th ∧ 0 < m.proximity_hits)
  ∧ (classify m th = .NoSignificantProximity ↔
      ¬ jitterBranch m th ∧ ¬ jitterNoSogBranch m th ∧ m.proximity_hits = 0)
  ∧ (m.avg_sog = some th.speed → classify m th ≠ .LikelyJitter)
  ∧ (m.proximity_hits = th.hits →
      classify m th ≠ .LikelyJitter ∧ classify m th ≠ .LikelyJitterNoSpeedData) := by
  have hchar : (classify m th = .LikelyJitter ↔ jitterBranch m th)
      ∧ (classify m th = .LikelyJitterNoSpeedData ↔ jitterNoSogBranch m th)
      ∧ (classify m th = .PotentialPattern ↔
          ¬ jitterBranch m th ∧ ¬ jitterNoSogBranch m th ∧ 0 < m.proximity_hits)
      ∧ (classify m th = .NoSignificantProximity ↔
          ¬ jitterBranch m th ∧ ¬ jitterNoSogBranch m th ∧ m.proximity_hits = 0) := by
    unfold classify jitterBranch jitterNoSogBranch
    cases hs : m.avg_sog with
    | none =>
      by_cases h1 : m.bbox_width_m < th.size ∧ m.bbox_height_m < th.size ∧
          th.hits < m.proximity_hits
      · simp [h1]
      · by_cases h2 : 0 < m.proximity_hits
        · simp [h1, h2]; omega
        · simp [h1, h2]; omega
    | some s =>
      by_cases h1 : s < th.speed ∧ m.bbox_width_m < th.size ∧ m.bbox_height_m < th.size ∧
          th.hits < m.proximity_hits
      · simp [h1]
      · by_cases h2 : 0 < m.proximity_hits
        · simp [h1, h2]; omega
        · simp [h1, h2]; omega
  refine ⟨hchar.1, hchar.2.1, hchar.2.2.1, hchar.2.2.2, ?_, ?_⟩
  · intro hsog hcl
    rcases hchar.1.mp hcl with ⟨s, hss, hlt, _⟩
    rw [hsog] at hss
    cases hss
    exact absurd hlt (lt_irrefl _)
  · intro hhits
    constructor
    · intro hcl
      rcases hchar.1.mp hcl with ⟨s, _, _, _, _, hgt⟩
      omega
    · intro hcl
      rcases hchar.2.1.mp hcl with ⟨_, _, _, hgt⟩
      omega

/-- Concrete instantiation of `classify_branch_order`: `avg_sog` exactly
at the 1.5 kn speed threshold and `proximity_hits` exactly at the hits
threshold 50 yield neither jitter branch. -/
theorem classify_branch_order_witness :
    Metrics.avg_sog ⟨some (3/2), 1, 100, 100, 50⟩ = some (Thresholds.speed ⟨3/2, 500, 50⟩) ∧
    Metrics.proximity_hits ⟨some (3/2), 1, 100, 100, 50⟩ = Thresholds.hits ⟨3/2, 500, 50⟩ ∧
    classify ⟨some (3/2), 1, 100, 100, 50⟩ ⟨3/2, 500, 50⟩ ≠ .LikelyJitter ∧
    classify ⟨some (3/2), 1, 100, 100, 50⟩ ⟨3/2, 500, 50⟩ ≠ .LikelyJitterNoSpeedData :=
  ⟨rfl, rfl,
   (classify_branch_order ⟨some (3/2), 1, 100, 100, 50⟩ ⟨3/2, 500, 50⟩).2.2.2.2.1 rfl,
   ((classify_branch_order ⟨some (3/2), 1, 100, 100, 50⟩ ⟨3/2, 500, 50⟩).2.2.2.2.2 rfl).2⟩

/-! ### Sorting lemmas for the trajectory builder -/

lemma insertByKey_perm (key : FixRow → ℤ) (r : FixRow) (l : List FixRow) :
    (insertByKey key r l).Perm (r :: l) := by
  induction l with
  | nil => simp [insertByKey]
  | cons y ys ih =>
    unfold insertByKey
    by_cases h : key r < key y
    · simp [h]
    · simp only [h, if_false]
      exact ((ih.cons y).trans (List.Perm.swap r y ys))

lemma sortRowsBy_perm (key : FixRow → ℤ) (l : List FixRow) :
    (sortRowsBy key l).Perm l := by
  induction l with
  | nil => simp [sortRowsBy]
  | cons x xs ih =>
    unfold sortRowsBy at ih ⊢
    simp only [List.foldr_cons]
    exact (insertByKey_perm key x _).trans (ih.cons x)

lemma insertByKey_sorted (key : FixRow → ℤ) (r : FixRow) (l : List FixRow)
    (h : l.Pairwise (fun a b => key a ≤ key b)) :
    (insertByKey key r l).Pairwise (fun a b => key a ≤ key b) := by
  induction l with
  | nil => simp [insertByKey]
  | cons y ys ih =>
    rcases List.pairwise_cons.mp h with ⟨hy, hys⟩
    unfold insertByKey
    by_cases hk : key r < key y
    · rw [if_pos hk]
      refine List.pairwise_cons.mpr ⟨?_, h⟩
      intro z hz
      rcases List.mem_cons.mp hz with rfl | hz
      · exact le_of_lt hk
      · exact le_trans (le_of_lt hk) (hy z hz)
    · rw [if_neg hk]
      refine List.pairwise_cons.mpr ⟨?_, ih hys⟩
      intro z hz
      have := (insertByKey_perm key r ys).mem_iff.mp hz
      rcases List.mem_cons.mp this with rfl | hz2
      · omega
      · exact hy z hz2

lemma sortRowsBy_sorted (key : FixRow → ℤ) (l : List FixRow) :
    (sortRowsBy key l).Pairwise (fun a b => key a ≤ key b) := by
  induction l with
  | nil => simp [sortRowsBy]
  | cons x xs ih =>
    unfold sortRowsBy at ih ⊢
    simp only [List.foldr_cons]
    exact insertByKey_sorted key x _ ih

lemma insertByKey_of_lt_all (key : FixRow → ℤ) (r : FixRow) (l : List FixRow)
    (h : ∀ y ∈ l, key r < key y) : insertByKey key r l = r :: l := by
  cases l with
  | nil => rfl
  | cons y ys => simp [insertByKey, h y (List.mem_cons_self y ys)]

/-- Sorting a list whose keys are already strictly increasing is the
identity; with the preserved positional index as key this says the vlm
builder's `sort_values(by='index')` leaves each group in original
ingestion order. -/
lemma sortRowsBy_eq_self (key : FixRow → ℤ) (l : List FixRow)
    (h : l.Pairwise (fun a b => key a < key b)) : sortRowsBy key l = l := by
  induction l with
  | nil => rfl
  | cons x xs ih =>
    rcases List.pairwise_cons.mp h with ⟨hx, hxs⟩
    unfold sortRowsBy at ih ⊢
    simp only [List.foldr_cons]
    rw [ih hxs]
    exact insertByKey_of_lt_all key x xs hx

/-! ### Claim C5 -/

/-- C5 counterexample: a single vessel's two fixes arrive with timestamps
present but in reverse chronological order (`BaseDateTime` 5 then 3);
`create_trajectories` of `vlm_processing.py` emits the points in original
ingestion order `[(0,0), (1,1)]`, not in timestamp order
`[(1,1), (0,0)]` — so the builder does not order by timestamp when
timestamps are present. -/
theorem create_trajectories_ignores_timestamps :
    create_trajectories [⟨0, 1, 0, 0, some 5⟩, ⟨1, 1, 1, 1, some 3⟩] 2 =
      [(1, [(0, 0), (1, 1)])] ∧
    create_trajectories [⟨0, 1, 0, 0, some 5⟩, ⟨1, 1, 1, 1, some 3⟩] 2 ≠
      [(1, [(1, 1), (0, 0)])] := by
  exact ⟨by decide, by decide⟩

/-- C5 (amended): for every per-vessel group, the vlm builder
(`create_trajectories`) always emits the group's points in original
ingestion order — its `sort_values(by='index')` on the strictly
increasing preserved index is the identity — regardless of timestamps;
the earlier `trajectory_processor.py` builder (`create_trajectories_tp`)
emits a permutation of the group ordered by non-decreasing timestamp
(timestamps are guaranteed present there by its loader). -/
theorem create_trajectories_order (df : List FixRow) (minp : ℕ)
    (hidx : df.Pairwise (fun a b => a.index < b.index)) :
    (∀ m pts, (m, pts) ∈ create_trajectories df minp →
        pts = (groupRows df m).map (fun r => (r.lon, r.lat)))
  ∧ (∀ m pts, (m, pts) ∈ create_trajectories_tp df minp →
        ∃ rows : List FixRow, rows.Perm (groupRows df m) ∧
          rows.Pairwise (fun a b => a.baseDateTime.getD 0 ≤ b.baseDateTime.getD 0) ∧
          pts = rows.map (fun r => (r.lon, r.lat))) := by
  constructor
  · intro m pts hmem
    rcases List.mem_filterMap.mp hmem with ⟨m2, hm2, hf⟩
    by_cases hlen : minp ≤ (groupRows df m2).length
    · simp only [hlen, if_true, Option.some.injEq, Prod.mk.injEq] at hf
      obtain ⟨rfl, hpts⟩ := hf
      rw [← hpts, sortRowsBy_eq_self]
      have : (groupRows df m2).Pairwise (fun a b => a.index < b.index) :=
        List.Pairwise.filter _ hidx
      exact this.imp (fun h => by exact_mod_cast h)
    · simp [hlen] at hf
  · intro m pts hmem
    rcases List.mem_filterMap.mp hmem with ⟨m2, hm2, hf⟩
    by_cases hlen : minp ≤ (groupRows df m2).length
    · simp only [hlen, if_true, Option.some.injEq, Prod.mk.injEq] at hf
      obtain ⟨rfl, hpts⟩ := hf
      exact ⟨sortRowsBy (fun r => r.baseDateTime.getD 0) (groupRows df m2),
        sortRowsBy_perm _ _, sortRowsBy_sorted _ _, hpts.symm⟩
    · simp [hlen] at hf

/-! ### Per-vessel accounting for the processing loop -/

/-- Records contributed by one vessel's iteration: exactly one for a
plotted "Potential Pattern for VLM" candidate, none otherwise. -/
def vesselRecords (g : Globals) (v : VesselEnv) : List PatternRecord :=
  match computeMetrics g v with
  | .err => []
  | .skip => []
  | .ok m =>
    if v.plotOk = true ∧ classify m g.th = .PotentialPattern then [candidateRecord g v m]
    else []

/-- 1 when the vessel's iteration reaches the trailing
`counts['processed'] += 1` (every path except the empty-projection
`continue`). -/
def vesselProcessedCount (g : Globals) (v : VesselEnv) : ℕ :=
  match computeMetrics g v with
  | .skip => 0
  | _ => 1

/-- 1 when a classification counter is bumped for the vessel. -/
def vesselClassifiedCount (g : Globals) (v : VesselEnv) : ℕ :=
  match computeMetrics g v with
  | .ok _ => 1
  | _ => 0

/-- 1 when the vessel's iteration raised before any classification
(`get_group` or `to_crs`), caught by the loop-level `except`. -/
def vesselErroredCount (g : Globals) (v : VesselEnv) : ℕ :=
  match computeMetrics g v with
  | .err => 1
  | _ => 0

/-- Whether the vessel hit the empty-projection `continue`. -/
def vesselSkipped (g : Globals) (v : VesselEnv) : Bool :=
  match computeMetrics g v with
  | .skip => true
  | _ => false

/-- Total of the three classification counters
`jitter + pattern_vlm + no_prox`. -/
def classifiedTotal (c : Counts) : ℕ :=
  c.jitter + c.pattern_vlm + c.no_prox

lemma vesselProcessed_eq (g : Globals) (v : VesselEnv) :
    vesselProcessedCount g v = vesselClassifiedCount g v + vesselErroredCount g v := by
  unfold vesselProcessedCount vesselClassifiedCount vesselErroredCount
  cases computeMetrics g v <;> rfl

lemma vlmStep_effect (g : Globals) (c : Counts) (recs : List PatternRecord)
    (v : VesselEnv) (m : Metrics) :
    (vlmStep g c recs v m).1.processed = c.processed ∧
    classifiedTotal (vlmStep g c recs v m).1 = classifiedTotal c ∧
    (vlmStep g c recs v m).2 = recs ++ [candidateRecord g v m] := by
  unfold classifiedTotal
  simp only [vlmStep]
  split_ifs <;> simp

lemma bumpClassCounter_effect (c : Counts) (cl : Classification) :
    (bumpClassCounter c cl).processed = c.processed ∧
    classifiedTotal (bumpClassCounter c cl) = classifiedTotal c + 1 := by
  cases cl <;> simp [bumpClassCounter, classifiedTotal] <;> omega

lemma processVessel_effect (g : Globals) (c : Counts) (recs : List PatternRecord)
    (v : VesselEnv) :
    (processVessel g (c, recs) v).1.processed = c.processed + vesselProcessedCount g v ∧
    classifiedTotal (processVessel g (c, recs) v).1 =
      classifiedTotal c + vesselClassifiedCount g v ∧
    (processVessel g (c, recs) v).2 = recs ++ vesselRecords g v := by
  unfold processVessel vesselRecords vesselProcessedCount vesselClassifiedCount
  cases hst : computeMetrics g v with
  | err => simp [classifiedTotal]
  | skip => simp
  | ok m =>
    cases hcl : classify m g.th <;>
      by_cases hp : v.plotOk <;>
        simp only [hp, hcl, bumpClassCounter, vlmStep, classifiedTotal, if_true, if_false,
          Bool.false_eq_true, reduceCtorEq, ite_true, ite_false, if_neg, not_false_iff] <;>
          split_ifs <;> simp_all [classifiedTotal] <;> omega

lemma foldl_process_effect (g : Globals) (vessels : List VesselEnv) :
    ∀ (c : Counts) (recs : List PatternRecord),
    ((vessels.foldl (processVessel g) (c, recs)).1.processed =
        c.processed + (vessels.map (vesselProcessedCount g)).sum) ∧
    (classifiedTotal (vessels.foldl (processVessel g) (c, recs)).1 =
        classifiedTotal c + (vessels.map (vesselClassifiedCount g)).sum) ∧
    ((vessels.foldl (processVessel g) (c, recs)).2 =
        recs ++ vessels.flatMap (vesselRecords g)) := by
  induction vessels with
  | nil => intro c recs; simp
  | cons v vs ih =>
    intro c recs
    obtain ⟨h1, h2, h3⟩ := processVessel_effect g c recs v
    obtain ⟨hA, hB, hC⟩ := ih (processVessel g (c, recs) v).1 (processVessel g (c, recs) v).2
    rw [Prod.mk.eta] at hA hB hC
    simp only [List.foldl_cons, List.map_cons, List.sum_cons, List.flatMap_cons]
    refine ⟨?_, ?_, ?_⟩
    · rw [hA, h1]; omega
    · rw [hB, h2]; omega
    · rw [hC, h3, List.append_assoc]

/-- Counter and record totals of a whole `process_trajectories` run. -/
lemma process_trajectories_effect (g : Globals) (vessels : List VesselEnv) :
    ((process_trajectories g vessels).1.processed =
        (vessels.map (vesselProcessedCount g)).sum) ∧
    (classifiedTotal (process_trajectories g vessels).1 =
        (vessels.map (vesselClassifiedCount g)).sum) ∧
    ((process_trajectories g vessels).2 = vessels.flatMap (vesselRecords g)) := by
  obtain ⟨h1, h2, h3⟩ := foldl_process_effect g vessels {} []
  refine ⟨?_, ?_, ?_⟩ <;> simp_all [process_trajectories, classifiedTotal]

lemma sum_processedCount_eq_filter (g : Globals) (vessels : List VesselEnv) :
    (vessels.map (vesselProcessedCount g)).sum =
      (vessels.filter (fun v => !(vesselSkipped g v))).length := by
  induction vessels with
  | nil => rfl
  | cons v vs ih =>
    have hv : vesselProcessedCount g v = if vesselSkipped g v then 0 else 1 := by
      unfold vesselProcessedCount vesselSkipped
      cases computeMetrics g v <;> rfl
    by_cases h : vesselSkipped g v
    · simp [hv, h, ih, List.filter_cons]
    · simp [hv, h, ih, List.filter_cons]
      omega

lemma sum_classified_le_processed (g : Globals) (vessels : List VesselEnv) :
    (vessels.map (vesselClassifiedCount g)).sum ≤
      (vessels.map (vesselProcessedCount g)).sum := by
  induction vessels with
  | nil => simp
  | cons v vs ih =>
    simp only [List.map_cons, List.sum_cons]
    have := vesselProcessed_eq g v
    omega

lemma sum_processed_sub_classified (g : Globals) (vessels : List VesselEnv) :
    (vessels.map (vesselProcessedCount g)).sum =
      (vessels.map (vesselClassifiedCount g)).sum +
      (vessels.map (vesselErroredCount g)).sum := by
  induction vessels with
  | nil => rfl
  | cons v vs ih =>
    simp only [List.map_cons, List.sum_cons]
    have := vesselProcessed_eq g v
    omega

lemma sum_errored_pos_iff (g : Globals) (vessels : List VesselEnv) :
    0 < (vessels.map (vesselErroredCount g)).sum ↔
      ∃ v ∈ vessels, computeMetrics g v = .err := by
  induction vessels with
  | nil => simp
  | cons v vs ih =>
    simp only [List.map_cons, List.sum_cons, List.mem_cons]
    constructor
    · intro h
      by_cases hv : vesselErroredCount g v = 0
      · rcases ih.mp (by omega) with ⟨w, hw, hwe⟩
        exact ⟨w, Or.inr hw, hwe⟩
      · refine ⟨v, Or.inl rfl, ?_⟩
        unfold vesselErroredCount at hv
        revert hv
        cases computeMetrics g v <;> simp
    · rintro ⟨w, hw | hw, hwe⟩
      · subst hw
        unfold vesselErroredCount
        rw [hwe]
        show 0 < 1 + _
        omega
      · have := ih.mpr ⟨w, hw, hwe⟩
        omega

/-! ### Error-path lemmas for the proximity counter -/

lemma count_hits_none (c : Option (ℚ × ℚ)) (u : Bool)
    (a : CRSSpec → List (ℚ × ℚ) → Option (List (ℚ × ℚ))) (t : ℚ) :
    count_self_proximity_hits none c u a t = 0 := rfl

lemma count_hits_short (traj : List (ℚ × ℚ)) (c : Option (ℚ × ℚ)) (u : Bool)
    (a : CRSSpec → List (ℚ × ℚ) → Option (List (ℚ × ℚ))) (t : ℚ)
    (h : traj.length < 5) :
    count_self_proximity_hits (some traj) c u a t = 0 := by
  simp [count_self_proximity_hits, h]

lemma count_hits_apply_failed (traj : List (ℚ × ℚ)) (c : Option (ℚ × ℚ)) (u : Bool)
    (a : CRSSpec → List (ℚ × ℚ) → Option (List (ℚ × ℚ))) (t : ℚ)
    (h : a (select_target_crs c u) traj = none) :
    count_self_proximity_hits (some traj) c u a t = 0 := by
  simp [count_self_proximity_hits, h]

lemma count_hits_proj_empty (traj : List (ℚ × ℚ)) (c : Option (ℚ × ℚ)) (u : Bool)
    (a : CRSSpec → List (ℚ × ℚ) → Option (List (ℚ × ℚ))) (t : ℚ)
    (h : a (select_target_crs c u) traj = some []) :
    count_self_proximity_hits (some traj) c u a t = 0 := by
  simp [count_self_proximity_hits, h]

lemma countPairs_le_sq (coords : List (ℚ × ℚ)) (t : ℚ) :
    countPairs coords t ≤ coords.length * coords.length := by
  rw [countPairs_eq_card]
  calc ((Finset.range coords.length ×ˢ Finset.range coords.length).filter _).card
      ≤ (Finset.range coords.length ×ˢ Finset.range coords.length).card :=
        Finset.card_filter_le _ _
    _ = coords.length * coords.length := by rw [Finset.card_product]; simp

lemma mem_vesselRecords_mmsi (g : Globals) (v : VesselEnv) (r : PatternRecord)
    (h : r ∈ vesselRecords g v) : r.mmsi = v.mmsi := by
  unfold vesselRecords at h
  revert h
  cases computeMetrics g v with
  | err => intro h; cases h
  | skip => intro h; cases h
  | ok m =>
    intro h
    simp only [] at h
    by_cases hc : v.plotOk = true ∧ classify m g.th = Classification.PotentialPattern
    · rw [if_pos hc] at h
      rcases List.mem_singleton.mp h with rfl
      rfl
    · rw [if_neg hc] at h
      cases h

/-! ### Claim C7 -/

/-- C7 (confirmed): a trajectory with fewer than 5 points yields
proximity count 0 before any pair distance is reached (the `len < 5`
early return precedes the projection and the pair loop); with the
minimum-point threshold 5 a vessel whose group has fewer than 5 fixes is
never emitted by `create_trajectories`, and since classification counts,
plots and the persisted tables are produced only from the emitted
trajectory dict, such a vessel's identifier never appears in the
`pattern_info` output. -/
theorem short_groups_excluded (df : List FixRow) (mid : ℤ)
    (hshort : (groupRows df mid).length < 5) :
    (∀ traj : List (ℚ × ℚ), traj.length < 5 →
      ∀ (c : Option (ℚ × ℚ)) (u : Bool)
        (a : CRSSpec → List (ℚ × ℚ) → Option (List (ℚ × ℚ))) (t : ℚ),
        count_self_proximity_hits (some traj) c u a t = 0)
  ∧ mid ∉ (create_trajectories df 5).map Prod.fst
  ∧ ∀ (g : Globals) (vessels : List VesselEnv),
      (∀ v ∈ vessels, v.mmsi ∈ (create_trajectories df 5).map Prod.fst) →
      ∀ r ∈ (process_trajectories g vessels).2, r.mmsi ≠ mid := by
  refine ⟨?_, ?_, ?_⟩
  · intro traj h c u a t
    exact count_hits_short traj c u a t h
  · intro hmem
    rcases List.mem_map.mp hmem with ⟨p, hp, hp1⟩
    rcases List.mem_filterMap.mp hp with ⟨m2, _, hf⟩
    by_cases hlen : 5 ≤ (groupRows df m2).length
    · simp only [hlen, if_true, Option.some.injEq] at hf
      have hm2 : m2 = mid := by rw [← hp1, ← hf]
      rw [hm2] at hlen
      omega
    · simp [hlen] at hf
  · intro g vessels hsub r hr
    have h3 := (process_trajectories_effect g vessels).2.2
    rw [h3] at hr
    rcases List.mem_flatMap.mp hr with ⟨v, hv, hrv⟩
    have hmm : r.mmsi = v.mmsi := mem_vesselRecords_mmsi g v r hrv
    intro heq
    have : v.mmsi ∈ (create_trajectories df 5).map Prod.fst := hsub v hv
    rw [← hmm, heq] at this
    rcases List.mem_map.mp this with ⟨p, hp, hp1⟩
    rcases List.mem_filterMap.mp hp with ⟨m2, _, hf⟩
    by_cases hlen : 5 ≤ (groupRows df m2).length
    · simp only [hlen, if_true, Option.some.injEq] at hf
      have hm2 : m2 = mid := by rw [← hp1, ← hf]
      rw [hm2] at hlen
      omega
    · simp [hlen] at hf

/-- Concrete instantiation of `short_groups_excluded`: a vessel with four
fixes is absent from the builder output and from the loop's records. -/
theorem short_groups_excluded_witness :
    ((groupRows [⟨0, 3, 0, 0, none⟩, ⟨1, 3, 1, 0, none⟩, ⟨2, 3, 2, 0, none⟩,
        ⟨3, 3, 3, 0, none⟩] 3).length < 5) ∧
    (3 : ℤ) ∉ (create_trajectories [⟨0, 3, 0, 0, none⟩, ⟨1, 3, 1, 0, none⟩,
        ⟨2, 3, 2, 0, none⟩, ⟨3, 3, 3, 0, none⟩] 5).map Prod.fst :=
  ⟨by decide,
   (short_groups_excluded [⟨0, 3, 0, 0, none⟩, ⟨1, 3, 1, 0, none⟩,
      ⟨2, 3, 2, 0, none⟩, ⟨3, 3, 3, 0, none⟩] 3 (by decide)).2.1⟩

/-! ### Claim C9 -/

/-- C9 (confirmed): `count_self_proximity_hits` is total at its
interface — the embedding is a total function into `ℕ` because every
Python exception inside the body is caught by the function's own
`try/except` returning 0 — and every internal error path (`None` input,
empty trajectory, fewer than 5 points, reprojection failure, empty or
short projection) returns 0; on the remaining path the result is the
pair-loop count, bounded by `N²`. -/
theorem count_self_proximity_hits_total (c : Option (ℚ × ℚ)) (u : Bool)
    (a : CRSSpec → List (ℚ × ℚ) → Option (List (ℚ × ℚ))) (t : ℚ) :
    (count_self_proximity_hits none c u a t = 0)
  ∧ (count_self_proximity_hits (some []) c u a t = 0)
  ∧ (∀ traj : List (ℚ × ℚ), traj.length < 5 →
      count_self_proximity_hits (some traj) c u a t = 0)
  ∧ (∀ traj : List (ℚ × ℚ), a (select_target_crs c u) traj = none →
      count_self_proximity_hits (some traj) c u a t = 0)
  ∧ (∀ traj : List (ℚ × ℚ), a (select_target_crs c u) traj = some [] →
      count_self_proximity_hits (some traj) c u a t = 0)
  ∧ (∀ traj : List (ℚ × ℚ), count_self_proximity_hits (some traj) c u a t = 0 ∨
      ∃ proj, a (select_target_crs c u) traj = some proj ∧
        count_self_proximity_hits (some traj) c u a t = countPairs proj t ∧
        countPairs proj t ≤ proj.length * proj.length) := by
  refine ⟨rfl, rfl, ?_, ?_, ?_, ?_⟩
  · intro traj h
    exact count_hits_short traj c u a t h
  · intro traj h
    exact count_hits_apply_failed traj c u a t h
  · intro traj h
    exact count_hits_proj_empty traj c u a t h
  · intro traj
    by_cases hs : traj.length < 5
    · exact Or.inl (count_hits_short traj c u a t hs)
    · rcases ha : a (select_target_crs c u) traj with _ | proj
      · exact Or.inl (count_hits_apply_failed traj c u a t ha)
      · by_cases hpe : proj.isEmpty
        · left
          have : proj = [] := by
            cases proj with
            | nil => rfl
            | cons x xs => cases hpe
          rw [this] at ha
          exact count_hits_proj_empty traj c u a t ha
        · by_cases hps : proj.length < 5
          · left
            have e1 : traj.isEmpty = false := by
              cases traj with
              | nil => simp at hs
              | cons x xs => rfl
            simp [count_self_proximity_hits, e1, hs, ha, hpe, hps]
          · right
            refine ⟨proj, rfl, ?_, countPairs_le_sq proj t⟩
            have e1 : traj.isEmpty = false := by
              cases traj with
              | nil => simp at hs
              | cons x xs => rfl
            simp [count_self_proximity_hits, e1, hs, ha, hpe, hps]

/-- Concrete instantiation of `count_self_proximity_hits_total`: the
short-trajectory and reprojection-failure paths both return 0. -/
theorem count_self_proximity_hits_total_witness :
    ([((0 : ℚ), (0 : ℚ))].length < 5 ∧
      count_self_proximity_hits (some [((0 : ℚ), (0 : ℚ))]) none false
        (fun _ _ => none) 200 = 0) ∧
    ((fun (_ : CRSSpec) (_ : List (ℚ × ℚ)) => (none : Option (List (ℚ × ℚ))))
        (select_target_crs none false) [(0, 0), (1, 0), (2, 0), (3, 0), (4, 0)] = none ∧
      count_self_proximity_hits (some [(0, 0), (1, 0), (2, 0), (3, 0), (4, 0)]) none false
        (fun _ _ => none) 200 = 0) :=
  ⟨⟨by decide, (count_self_proximity_hits_total none false (fun _ _ => none) 200).2.2.1
      [((0 : ℚ), (0 : ℚ))] (by decide)⟩,
   ⟨rfl, (count_self_proximity_hits_total none false (fun _ _ => none) 200).2.2.2.1
      [(0, 0), (1, 0), (2, 0), (3, 0), (4, 0)] rfl⟩⟩

/-! ### Claim C10 -/

/-- C10 counterexample: one input trajectory whose reprojection yields an
empty line takes the `continue` branch, which jumps past the trailing
`counts['processed'] += 1` — so after the run `processed = 0` while the
number of input trajectories is 1, refuting `processed = number of input
trajectories`. -/
theorem processed_counter_counterexample :
    (process_trajectories
        ⟨fun _ _ => some [], fun _ => 0, fun _ => none, ⟨3/2, 500, 50⟩⟩
        [⟨7, [(0, 0)], some ⟨true, some 1⟩, some (0, 0), false, true, .ok "x", false⟩]).1.processed
      = 0 ∧
    ([⟨7, [(0, 0)], some ⟨true, some 1⟩, some (0, 0), false, true, .ok "x", false⟩] :
        List VesselEnv).length = 1 ∧
    (0 : ℕ) ≠ 1 := by
  refine ⟨rfl, rfl, by decide⟩

/-- C10 (amended): after `process_trajectories`, `processed` equals the
number of input trajectories that did not hit the empty-projection
`continue` (that branch skips the trailing `counts['processed'] += 1`,
so such vessels are counted nowhere); the sum
`jitter + pattern_vlm + no_prox` is at most `processed`, with strict
inequality exactly when some vessel raised a per-vessel error
(`get_group` or `to_crs`) before any classification counter was
bumped. -/
theorem process_trajectories_counter_invariants (g : Globals) (vessels : List VesselEnv) :
    ((process_trajectories g vessels).1.processed =
      (vessels.filter (fun v => !(vesselSkipped g v))).length)
  ∧ (classifiedTotal (process_trajectories g vessels).1 ≤
      (process_trajectories g vessels).1.processed)
  ∧ (classifiedTotal (process_trajectories g vessels).1 <
        (process_trajectories g vessels).1.processed ↔
      ∃ v ∈ vessels, computeMetrics g v = .err) := by
  obtain ⟨h1, h2, h3⟩ := process_trajectories_effect g vessels
  refine ⟨?_, ?_, ?_⟩
  · rw [h1, sum_processedCount_eq_filter]
  · rw [h1, h2]
    exact sum_classified_le_processed g vessels
  · rw [h1, h2, sum_processed_sub_classified, ← sum_errored_pos_iff]
    omega

/-! ### Claim C3 -/

/-- C3 counterexample: a PotentialPattern candidate whose client call
raises (`Connection timed out`).  `analyze_trajectory_with_claude`
returns the plain string `"ERROR: Connection timed out"`, which is not
valid JSON, so `extract_classification` records `"PARSING_ERROR"` — the
very ParsingError value — and no distinct ServiceError value exists
anywhere in the code.  The trajectory is six coincident points (6
proximity hits), SOG mean 10 kn, so the deterministic stage classifies
it "Potential Pattern for VLM". -/
theorem service_failure_records_parsing_error :
    ((process_trajectories
        ⟨fun _ l => some l, fun _ => 0, fun _ => none, ⟨3/2, 500, 50⟩⟩
        [⟨9, [(0, 0), (0, 0), (0, 0), (0, 0), (0, 0), (0, 0)], some ⟨true, some 10⟩,
          some (0, 0), false, true, .error "Connection timed out", false⟩]).2.map
        (fun r => r.survey_classification)) = [Json.str "PARSING_ERROR"] ∧
    ((process_trajectories
        ⟨fun _ l => some l, fun _ => 0, fun _ => none, ⟨3/2, 500, 50⟩⟩
        [⟨9, [(0, 0), (0, 0), (0, 0), (0, 0), (0, 0), (0, 0)], some ⟨true, some 10⟩,
          some (0, 0), false, true, .error "Connection timed out", false⟩]).2.map
        (fun r => r.vlm_raw_result)) = ["ERROR: Connection timed out"] :=
  ⟨rfl, rfl⟩

/-- C3 (amended): when the client call of a plotted PotentialPattern
candidate raises with message `e`, the candidate's recorded
survey_classification is `"PARSING_ERROR"` (the `"ERROR: " ++ e` string
returned by the `except` branch never parses as JSON), not a distinct
ServiceError value; the raw `"ERROR: " ++ e` text is preserved in the
record, the record is appended to `pattern_info`, and the batch is not
aborted — the vessels before and after contribute exactly as they would
alone. -/
theorem service_failure_isolation (g : Globals) (pre post : List VesselEnv)
    (v : VesselEnv) (e : String) (m : Metrics)
    (hcall : v.vlmCall = .error e)
    (hloads : g.loads ("ERROR: " ++ e) = none)
    (hm : computeMetrics g v = .ok m)
    (hcl : classify m g.th = .PotentialPattern)
    (hplot : v.plotOk = true) :
    ((process_trajectories g (pre ++ v :: post)).2 =
      pre.flatMap (vesselRecords g) ++
        candidateRecord g v m :: post.flatMap (vesselRecords g))
  ∧ (candidateRecord g v m).survey_classification = .str "PARSING_ERROR"
  ∧ (candidateRecord g v m).vlm_raw_result = "ERROR: " ++ e
  ∧ (candidateRecord g v m).mmsi = v.mmsi
  ∧ (process_trajectories g (pre ++ v :: post)).1.processed =
      (pre.map (vesselProcessedCount g)).sum + 1 +
        (post.map (vesselProcessedCount g)).sum := by
  have hraw : analyze_trajectory_with_claude v.vlmCall = "ERROR: " ++ e := by
    rw [hcall]
    rfl
  have hrec : vesselRecords g v = [candidateRecord g v m] := by
    unfold vesselRecords
    rw [hm]
    simp [hplot, hcl]
  refine ⟨?_, ?_, ?_, rfl, ?_⟩
  · have h3 := (process_trajectories_effect g (pre ++ v :: post)).2.2
    rw [h3, List.flatMap_append, List.flatMap_cons, hrec]
    simp
  · show extract_classification g.loads (analyze_trajectory_with_claude v.vlmCall) =
      .str "PARSING_ERROR"
    rw [hraw]
    unfold extract_classification
    rw [hloads]
  · show analyze_trajectory_with_claude v.vlmCall = "ERROR: " ++ e
    exact hraw
  · have h1 := (process_trajectories_effect g (pre ++ v :: post)).1
    rw [h1, List.map_append, List.map_cons, List.sum_append, List.sum_cons]
    have hv : vesselProcessedCount g v = 1 := by
      unfold vesselProcessedCount
      rw [hm]
    rw [hv]
    omega

/-- Concrete instantiation of `service_failure_isolation` at the vessel
of `service_failure_records_parsing_error`, with empty surrounding
batch. -/
theorem service_failure_isolation_witness :
    (VesselEnv.vlmCall ⟨9, [(0, 0), (0, 0), (0, 0), (0, 0), (0, 0), (0, 0)],
        some ⟨true, some 10⟩, some (0, 0), false, true,
        .error "Connection timed out", false⟩ = .error "Connection timed out") ∧
    (computeMetrics ⟨fun _ l => some l, fun _ => 0, fun _ => none, ⟨3/2, 500, 50⟩⟩
        ⟨9, [(0, 0), (0, 0), (0, 0), (0, 0), (0, 0), (0, 0)], some ⟨true, some 10⟩,
          some (0, 0), false, true, .error "Connection timed out", false⟩ =
      .ok ⟨some 10, 0, 0, 0, 6⟩) ∧
    (candidateRecord ⟨fun _ l => some l, fun _ => 0, fun _ => none, ⟨3/2, 500, 50⟩⟩
        ⟨9, [(0, 0), (0, 0), (0, 0), (0, 0), (0, 0), (0, 0)], some ⟨true, some 10⟩,
          some (0, 0), false, true, .error "Connection timed out", false⟩
        ⟨some 10, 0, 0, 0, 6⟩).survey_classification = .str "PARSING_ERROR" := by
  refine ⟨rfl, by decide, ?_⟩
  exact (service_failure_isolation
    ⟨fun _ l => some l, fun _ => 0, fun _ => none, ⟨3/2, 500, 50⟩⟩ [] []
    ⟨9, [(0, 0), (0, 0), (0, 0), (0, 0), (0, 0), (0, 0)], some ⟨true, some 10⟩,
      some (0, 0), false, true, .error "Connection timed out", false⟩
    "Connection timed out" ⟨some 10, 0, 0, 0, 6⟩
    rfl rfl (by decide) (by decide) rfl).2.1

/-! ### Claim C4 -/

/-- C4 counterexample: the response text `{"explanation": "x"}` is valid
JSON (so `json.loads` succeeds, returning the one-field object) but does
not match the expected structure — it has no `classification` field.
`extract_classification` records `"UNKNOWN"` (the `dict.get` default),
which is neither ParsingError nor one of the three survey labels; and a
valid-JSON non-object such as `[1]` records `"ERROR"`. -/
theorem extract_classification_counterexample :
    extract_classification
        (fun s => if s = "\x7b\"explanation\": \"x\"\x7d"
          then some (Json.obj [("explanation", Json.str "x")]) else none)
        "\x7b\"explanation\": \"x\"\x7d" = Json.str "UNKNOWN"
  ∧ Json.str "UNKNOWN" ≠ Json.str "PARSING_ERROR"
  ∧ Json.str "UNKNOWN" ≠ Json.str "LIKELY_SURVEY_PATTERN"
  ∧ Json.str "UNKNOWN" ≠ Json.str "POSSIBLE_SURVEY_PATTERN"
  ∧ Json.str "UNKNOWN" ≠ Json.str "UNLIKELY_SURVEY_PATTERN"
  ∧ extract_classification
        (fun s => if s = "[1]" then some (Json.arr [Json.num 1]) else none)
        "[1]" = Json.str "ERROR" := by
  refine ⟨rfl, by simp, by simp, by simp, by simp, rfl⟩

/-- C4 (amended): a response that `json.loads` cannot parse yields
`"PARSING_ERROR"` and the raw text is preserved in the record, without
aborting the batch; but a syntactically valid JSON response that does
not match the expected structure is not recorded as ParsingError —
a parsed object without the `classification` field records `"UNKNOWN"`,
a parsed non-object records `"ERROR"` (the `dict.get` `AttributeError`
path), and a parsed object records whatever value its `classification`
field holds, so values outside {three labels, ParsingError} can be
recorded. -/
theorem extract_classification_shapes (loads : String → Option Json) :
    (∀ s, loads s = none → extract_classification loads s = .str "PARSING_ERROR")
  ∧ (∀ s fields, loads s = some (.obj fields) →
      lookupField fields "classification" = none →
      extract_classification loads s = .str "UNKNOWN")
  ∧ (∀ s j, loads s = some j → (∀ fields, j ≠ Json.obj fields) →
      extract_classification loads s = .str "ERROR")
  ∧ (∀ s fields jv, loads s = some (.obj fields) →
      lookupField fields "classification" = some jv →
      extract_classification loads s = jv)
  ∧ (∀ (g : Globals) (v : VesselEnv) (m : Metrics),
      (candidateRecord g v m).vlm_raw_result =
        analyze_trajectory_with_claude v.vlmCall ∧
      (candidateRecord g v m).survey_classification =
        extract_classification g.loads (analyze_trajectory_with_claude v.vlmCall)) := by
  refine ⟨?_, ?_, ?_, ?_, ?_⟩
  · intro s h
    unfold extract_classification
    rw [h]
  · intro s fields h hl
    unfold extract_classification
    rw [h]
    simp [hl]
  · intro s j h hobj
    unfold extract_classification
    rw [h]
    cases j with
    | obj fields => exact absurd rfl (hobj fields)
    | str s2 => rfl
    | num q => rfl
    | bool b => rfl
    | null => rfl
    | arr xs => rfl
  · intro s fields jv h hl
    unfold extract_classification
    rw [h]
    simp [hl]
  · intro g v m
    exact ⟨rfl, rfl⟩

/-- Concrete instantiation of `extract_classification_shapes`: an
unparsable response yields `"PARSING_ERROR"`. -/
theorem extract_classification_shapes_witness :
    ((fun _ : String => (none : Option Json)) "not json" = none) ∧
    extract_classification (fun _ => none) "not json" = .str "PARSING_ERROR" :=
  ⟨rfl, (extract_classification_shapes (fun _ => none)).1 "not json" rfl⟩

/-! ### Claim C6 -/

/-- C6 counterexample: a trajectory of six coincident points whose
per-vessel UTM projection is constructed successfully but whose
reprojection (`to_crs`) raises.  The oracle projects successfully under
EPSG:3857 (identity), under which the pair loop would count 6 hits; yet
`count_self_proximity_hits` returns 0 (its `except` path) and in the
processing loop the vessel's iteration errors out with no classification
— there is no retry under the fixed global projection after an apply
failure. -/
theorem projection_apply_failure_counterexample :
    count_self_proximity_hits
        (some [(0, 0), (0, 0), (0, 0), (0, 0), (0, 0), (0, 0)]) (some (0, 0)) false
        (fun crs l => match crs with | .epsg3857 => some l | _ => none) 200 = 0
  ∧ (fun (crs : CRSSpec) (l : List (ℚ × ℚ)) =>
        match crs with | .epsg3857 => some l | _ => none) CRSSpec.epsg3857
        [((0 : ℚ), (0 : ℚ)), (0, 0), (0, 0), (0, 0), (0, 0), (0, 0)] =
      some [(0, 0), (0, 0), (0, 0), (0, 0), (0, 0), (0, 0)]
  ∧ countPairs [(0, 0), (0, 0), (0, 0), (0, 0), (0, 0), (0, 0)] 200 = 6
  ∧ computeMetrics
      ⟨fun crs l => match crs with | .epsg3857 => some l | _ => none,
        fun _ => 0, fun _ => none, ⟨3/2, 500, 50⟩⟩
      ⟨9, [(0, 0), (0, 0), (0, 0), (0, 0), (0, 0), (0, 0)], some ⟨true, some 10⟩,
        some (0, 0), false, true, .ok "x", false⟩ = .err
  ∧ classifiedTotal (process_trajectories
      ⟨fun crs l => match crs with | .epsg3857 => some l | _ => none,
        fun _ => 0, fun _ => none, ⟨3/2, 500, 50⟩⟩
      [⟨9, [(0, 0), (0, 0), (0, 0), (0, 0), (0, 0), (0, 0)], some ⟨true, some 10⟩,
        some (0, 0), false, true, .ok "x", false⟩]).1 = 0 := by
  exact ⟨rfl, rfl, by decide, by decide, rfl⟩

/-- C6 (amended): the EPSG:3857 fallback covers only the selection of the
target CRS — an empty centroid or a `CRS.from_dict` construction failure
falls back to the fixed global projection, and with a sound centroid the
local UTM CRS from `estimate_utm_crs` is used; but a failure to *apply*
the projection (`to_crs` raising) is not retried with the fallback: the
proximity counter returns 0 and the vessel's processing iteration ends
in the loop-level `except` with no classification. -/
theorem projection_fallback_scope (g : Globals) :
    (∀ u : Bool, select_target_crs none u = .epsg3857)
  ∧ (∀ cen : ℚ × ℚ, select_target_crs (some cen) true = .epsg3857)
  ∧ (∀ cen : ℚ × ℚ, select_target_crs (some cen) false = estimate_utm_crs cen.2 cen.1)
  ∧ (∀ (traj : List (ℚ × ℚ)) (cen : Option (ℚ × ℚ)) (u : Bool) (t : ℚ),
      g.applyCRS (select_target_crs cen u) traj = none →
      count_self_proximity_hits (some traj) cen u g.applyCRS t = 0)
  ∧ (∀ v : VesselEnv, v.group ≠ none →
      g.applyCRS (select_target_crs v.centroid v.utmRaises) v.traj = none →
      computeMetrics g v = .err) := by
  refine ⟨fun u => rfl, fun cen => rfl, fun cen => rfl, ?_, ?_⟩
  · intro traj cen u t h
    exact count_hits_apply_failed traj cen u g.applyCRS t h
  · intro v hg ha
    unfold computeMetrics
    cases hgr : v.group with
    | none => exact absurd hgr hg
    | some grp => rw [ha]

/-- Concrete instantiation of `projection_fallback_scope`: a vessel whose
reprojection raises is dropped from classification. -/
theorem projection_fallback_scope_witness :
    (VesselEnv.group ⟨9, [(0, 0)], some ⟨true, some 10⟩, some (0, 0), false, true,
        .ok "x", false⟩ ≠ none) ∧
    ((fun _ _ => (none : Option (List (ℚ × ℚ)))) (select_target_crs (some (0, 0)) false)
        [((0 : ℚ), (0 : ℚ))] = none) ∧
    computeMetrics ⟨fun _ _ => none, fun _ => 0, fun _ => none, ⟨3/2, 500, 50⟩⟩
      ⟨9, [(0, 0)], some ⟨true, some 10⟩, some (0, 0), false, true, .ok "x", false⟩ = .err :=
  ⟨by simp, rfl,
   (projection_fallback_scope
      ⟨fun _ _ => none, fun _ => 0, fun _ => none, ⟨3/2, 500, 50⟩⟩).2.2.2.2
      ⟨9, [(0, 0)], some ⟨true, some 10⟩, some (0, 0), false, true, .ok "x", false⟩
      (by simp) rfl⟩

/-! ### Claim C8 -/

/-- C8 counterexample: a failing CSV write is caught inside
`save_vlm_results` (its `except Exception` prints and returns), and the
`__main__` block still unconditionally reaches
`print("Reprocessing finished.")` — an output-write failure is absorbed
and the run is reported finished, not failed. -/
theorem save_failure_not_fatal_counterexample :
    save_vlm_results
        [⟨1, 0, none, 1, 0, 0, .str "UNLIKELY_SURVEY_PATTERN", "raw"⟩]
        "20240101_000000" (fun _ _ => .error "disk full") =
      .errorLogged "disk full"
  ∧ (reprocessMainTail
        [⟨1, 0, none, 1, 0, 0, .str "UNLIKELY_SURVEY_PATTERN", "raw"⟩]
        "20240101_000000" (fun _ _ => .error "disk full")).2 =
      "Reprocessing finished." :=
  ⟨rfl, rfl⟩

/-- C8 (amended): a failure writing either result file makes
`save_vlm_results` return the logged-error outcome (carrying only the
exception text, not necessarily the attempted path), and the run
continues to its final "Reprocessing finished." message on every input —
an output-write failure never escalates to a run failure. -/
theorem save_vlm_results_error_handling (info : List PatternRecord) (ts : String)
    (write : String → List PatternRecord → Except String Unit) :
    ((reprocessMainTail info ts write).2 = "Reprocessing finished.")
  ∧ (∀ e, info ≠ [] →
      write ("vlm_analysis_results_" ++ ts ++ ".csv") info = .error e →
      save_vlm_results info ts write = .errorLogged e)
  ∧ (∀ e, info ≠ [] →
      write ("vlm_analysis_results_" ++ ts ++ ".csv") info = .ok () →
      write ("vlm_analysis_full_" ++ ts ++ ".csv") info = .error e →
      save_vlm_results info ts write = .errorLogged e) := by
  have hne : ∀ (h : info ≠ []), info.isEmpty = false := by
    intro h
    cases info with
    | nil => exact absurd rfl h
    | cons x xs => rfl
  refine ⟨rfl, ?_, ?_⟩
  · intro e h hw
    unfold save_vlm_results
    rw [hne h]
    simp only [Bool.false_eq_true, if_false]
    rw [hw]
  · intro e h hw1 hw2
    unfold save_vlm_results
    rw [hne h]
    simp only [Bool.false_eq_true, if_false]
    rw [hw1, hw2]

/-- Concrete instantiation of `save_vlm_results_error_handling`: one
record, a writer that fails on the first file. -/
theorem save_vlm_results_error_handling_witness :
    (([⟨1, 0, none, 1, 0, 0, Json.str "UNLIKELY_SURVEY_PATTERN", "raw"⟩] :
        List PatternRecord) ≠ []) ∧
    ((fun (_ : String) (_ : List PatternRecord) => (.error "disk full" : Except String Unit))
        ("vlm_analysis_results_" ++ "ts" ++ ".csv")
        [⟨1, 0, none, 1, 0, 0, Json.str "UNLIKELY_SURVEY_PATTERN", "raw"⟩] =
      .error "disk full") ∧
    save_vlm_results [⟨1, 0, none, 1, 0, 0, Json.str "UNLIKELY_SURVEY_PATTERN", "raw"⟩]
      "ts" (fun _ _ => .error "disk full") = .errorLogged "disk full" :=
  ⟨by simp, rfl,
   (save_vlm_results_error_handling
      [⟨1, 0, none, 1, 0, 0, Json.str "UNLIKELY_SURVEY_PATTERN", "raw"⟩] "ts"
      (fun _ _ => .error "disk full")).2.1 "disk full" (by simp) rfl⟩

/-- Concrete instantiation of `create_trajectories_order`: the two-row
frame of the counterexample has strictly increasing indices, and the
emitted points are exactly the group's points in original order. -/
theorem create_trajectories_order_witness :
    List.Pairwise (fun a b => a.index < b.index)
      [(⟨0, 1, 0, 0, some 5⟩ : FixRow), ⟨1, 1, 1, 1, some 3⟩] ∧
    ∀ m pts, (m, pts) ∈
        create_trajectories [(⟨0, 1, 0, 0, some 5⟩ : FixRow), ⟨1, 1, 1, 1, some 3⟩] 2 →
      pts = (groupRows [(⟨0, 1, 0, 0, some 5⟩ : FixRow), ⟨1, 1, 1, 1, some 3⟩] m).map
        (fun r => (r.lon, r.lat)) :=
  ⟨by decide,
   (create_trajectories_order [(⟨0, 1, 0, 0, some 5⟩ : FixRow), ⟨1, 1, 1, 1, some 3⟩] 2
      (by decide)).1⟩

end NatsecAis
